import Mathlib

/-!
Shallow embedding of `src/cloud_api.py` (Venus ERP Sync API v4).

The relational store is modelled as lists of rows; each endpoint is a pure
function from a payload, the current server time, and the database state to
the new database state paired with the HTTP outcome (`Except` of an error
or a success body).  Numeric columns (`float(...)` coercions in the source)
are modelled over `Rat` with the source's defaults; timestamps (`NOW()`,
`datetime.now()`) are modelled by an explicit `now` parameter.
-/

/-- A row of the `tenants` table.  The source's `verify` only reads
`subscription_status` and `company_name` for the matching
`(tenant_id, license_key)`; the schema-level columns `period_end` and
`override` are carried so properties about them can be stated. -/
structure TenantRow where
  tenant_id : String
  license_key : String
  subscription_status : String
  company_name : String
  period_end : Option Nat
  override : Bool
deriving Repr, DecidableEq

/-- A row of the `devices` table. -/
structure DeviceRow where
  device_id : String
  tenant_id : String
  last_seen : Nat
deriving Repr, DecidableEq

/-- A row of the `items` table.  `updated_at` is set only by the
`ON CONFLICT ... DO UPDATE` branch (`NOW()`). -/
structure ItemRow where
  tenant_id : String
  local_id : String
  name : String
  code : String
  category : String
  cost_price : Rat
  selling_price : Rat
  wholesale_price : Rat
  opening_stock : Rat
  updated_at : Option Nat
deriving Repr, DecidableEq

/-- A stored date column: either the string supplied in the record's
`date` field, or the server-side `datetime.now()` fallback. -/
inductive DateVal where
  | given (s : String)
  | serverNow (t : Nat)
deriving Repr, DecidableEq

/-- A row of the `sales` table. -/
structure SaleRow where
  tenant_id : String
  local_id : String
  sale_date : DateVal
  store_name : String
  customer_name : String
  cashier_name : String
  pay_mode : String
  total_amount : Rat
deriving Repr, DecidableEq

/-- A row of the `sale_items` table. -/
structure SaleItemRow where
  tenant_id : String
  sale_local_id : String
  item_name : String
  quantity : Rat
  price : Rat
  total : Rat
  cog : Rat
deriving Repr, DecidableEq

/-- A row of the `purchases` table. -/
structure PurchaseRow where
  tenant_id : String
  local_id : String
  purchase_date : DateVal
  reference : String
  store_name : String
  supplier_name : String
  total_amount : Rat
deriving Repr, DecidableEq

/-- A row of the `purchase_items` table. -/
structure PurchaseItemRow where
  tenant_id : String
  purchase_local_id : String
  item_name : String
  quantity : Rat
  price : Rat
  total : Rat
deriving Repr, DecidableEq

/-- A row of the `expenses` table. -/
structure ExpenseRow where
  tenant_id : String
  local_id : String
  expense_date : DateVal
  reference : String
  store_name : String
  payee_name : String
  cashier_name : String
  total_amount : Rat
deriving Repr, DecidableEq

/-- A row of the `expense_items` table. -/
structure ExpenseItemRow where
  tenant_id : String
  expense_local_id : String
  category : String
  description : String
  amount : Rat
deriving Repr, DecidableEq

/-- The whole relational store. -/
structure DB where
  tenants : List TenantRow
  devices : List DeviceRow
  items : List ItemRow
  sales : List SaleRow
  sale_items : List SaleItemRow
  purchases : List PurchaseRow
  purchase_items : List PurchaseItemRow
  expenses : List ExpenseRow
  expense_items : List ExpenseItemRow
deriving Repr, DecidableEq

/-- The request body (`class Payload(BaseModel)`), with the entity-specific
record type as a parameter (the source holds `data : List[Dict[str, Any]]`). -/
structure Payload (α : Type) where
  tenant_id : String
  license_key : String
  device_id : String
  data : List α
  batch_id : Option String
deriving Repr, DecidableEq

/-- The HTTP error outcomes raised by `verify` (both are
`HTTP_401_UNAUTHORIZED` in the source, distinguished by the detail text). -/
inductive ApiError where
  | unauthorized : ApiError
  | subscriptionInactive (subscription_status : String) : ApiError
deriving Repr, DecidableEq

/-- HTTP status code attached to an `ApiError` by the source. -/
def ApiError.statusCode : ApiError → Nat
  | .unauthorized => 401
  | .subscriptionInactive _ => 401

/-- The `detail` message attached to an `ApiError` by the source. -/
def ApiError.detail : ApiError → String
  | .unauthorized => "Invalid tenant ID or license key"
  | .subscriptionInactive st =>
      "Subscription " ++ st ++ ". Please renew your subscription."

/-- The success body of `/api/verify-license`. -/
structure VerifyOk where
  status : String
  tenant_id : String
  company_name : String
  device_id : String
  message : String
deriving Repr, DecidableEq

/-- The `SELECT ... FROM tenants WHERE tenant_id = :tenant_id AND
license_key = :license_key` lookup (`fetchone`). -/
def findTenant (tenant_id license_key : String) (db : DB) : Option TenantRow :=
  db.tenants.find? (fun t => t.tenant_id == tenant_id && t.license_key == license_key)

/-- The `INSERT INTO devices ... ON CONFLICT (device_id) DO UPDATE SET
last_seen = NOW(), tenant_id = EXCLUDED.tenant_id` statement. -/
def upsertDevice (device_id tenant_id : String) (now : Nat)
    (devices : List DeviceRow) : List DeviceRow :=
  if devices.any (fun d => d.device_id == device_id) then
    devices.map (fun d =>
      if d.device_id == device_id then
        { d with tenant_id := tenant_id, last_seen := now }
      else d)
  else
    devices ++ [{ device_id := device_id, tenant_id := tenant_id, last_seen := now }]

/-- `POST /api/verify-license`: tenant/key lookup, subscription-status check,
then the device heartbeat upsert; failures raise before any write. -/
def verify (p : Payload α) (now : Nat) (db : DB) : DB × Except ApiError VerifyOk :=
  match findTenant p.tenant_id p.license_key db with
  | none => (db, .error .unauthorized)
  | some t =>
      if t.subscription_status == "active" then
        ({ db with devices := upsertDevice p.device_id p.tenant_id now db.devices },
         .ok { status := "active", tenant_id := p.tenant_id,
               company_name := t.company_name, device_id := p.device_id,
               message := "License verified successfully" })
      else
        (db, .error (.subscriptionInactive t.subscription_status))

/-- One record of an items-sync batch; `Option` encodes key presence in the
source's `Dict[str, Any]` record, with numeric values already coerced. -/
structure ItemRecordInput where
  local_id : Option String
  name : Option String
  code : Option String
  category : Option String
  cost : Option Rat
  price : Option Rat
  wholesale : Option Rat
  stock : Option Rat
deriving Repr, DecidableEq

/-- The parameter binding of the `INSERT INTO items` statement. -/
def mkItemRow (tenant_id : String) (r : ItemRecordInput) (lid : String) : ItemRow :=
  { tenant_id := tenant_id
    local_id := lid
    name := r.name.getD ""
    code := r.code.getD ""
    category := r.category.getD "General"
    cost_price := r.cost.getD 0
    selling_price := r.price.getD 0
    wholesale_price := r.wholesale.getD 0
    opening_stock := r.stock.getD 0
    updated_at := none }

/-- Whether a row with natural key `(tenant_id, local_id)` exists in `items`. -/
def itemKeyPresent (tenant_id local_id : String) (items : List ItemRow) : Bool :=
  items.any (fun it => it.tenant_id == tenant_id && it.local_id == local_id)

/-- The `INSERT INTO items ... ON CONFLICT (tenant_id, local_id) DO UPDATE`
statement: on conflict every mutable column is overwritten from the incoming
row and `updated_at` is set to `NOW()`. -/
def upsertItem (row : ItemRow) (now : Nat) (items : List ItemRow) : List ItemRow :=
  if itemKeyPresent row.tenant_id row.local_id items then
    items.map (fun it =>
      if it.tenant_id == row.tenant_id && it.local_id == row.local_id then
        { row with updated_at := some now }
      else it)
  else
    items ++ [row]

/-- Loop state of the `sync_items` batch loop. -/
structure ItemsLoop where
  items : List ItemRow
  success_count : Nat
  errors : List String
deriving Repr, DecidableEq

/-- One iteration of the `sync_items` loop: the required-field validation
(`local_id` then `name`, first missing one raises) followed by the upsert;
a validation error is appended and the loop continues. -/
def itemsStep (tenant_id : String) (now : Nat) (st : ItemsLoop)
    (r : ItemRecordInput) : ItemsLoop :=
  match r.local_id, r.name with
  | some lid, some _ =>
      { st with items := upsertItem (mkItemRow tenant_id r lid) now st.items,
                success_count := st.success_count + 1 }
  | none, _ =>
      { st with errors := st.errors ++
          ["Record unknown: Missing required field: local_id"] }
  | some lid, none =>
      { st with errors := st.errors ++
          ["Record " ++ lid ++ ": Missing required field: name"] }

/-- Response body of `/api/sync/items`: the `No data to sync` short-circuit
(count 0) or the summary with `count`, `errors_count` and the first ten
error messages. -/
inductive ItemsResult where
  | noData
  | synced (count : Nat) (errors_count : Nat) (errors : List String)
deriving Repr, DecidableEq

/-- `POST /api/sync/items`: license gate first, then the batch loop with
insert-or-update conflict policy. -/
def sync_items (p : Payload ItemRecordInput) (now : Nat) (db : DB) :
    DB × Except ApiError ItemsResult :=
  match verify p now db with
  | (_, .error e) => (db, .error e)
  | (db1, .ok _) =>
      if p.data.isEmpty then (db1, .ok .noData)
      else
        let st := p.data.foldl (itemsStep p.tenant_id now)
          { items := db1.items, success_count := 0, errors := [] }
        ({ db1 with items := st.items },
         .ok (.synced st.success_count st.errors.length (st.errors.take 10)))

/-- One nested line item of a sales record (`record['items']`). -/
structure SaleItemInput where
  name : Option String
  qty : Option Rat
  price : Option Rat
  total : Option Rat
  cog : Option Rat
deriving Repr, DecidableEq

/-- One record of a sales-sync batch. -/
structure SaleRecordInput where
  local_id : Option String
  date : Option String
  store : Option String
  customer : Option String
  cashier : Option String
  paymode : Option String
  total : Option Rat
  items : List SaleItemInput
deriving Repr, DecidableEq

/-- The date resolution of the sync loops: the record's `date` value when
present and truthy (non-empty), else `datetime.now()`. -/
def resolveDate (d : Option String) (now : Nat) : DateVal :=
  match d with
  | some s => if s == "" then .serverNow now else .given s
  | none => .serverNow now

/-- The parameter binding of the `INSERT INTO sales` statement. -/
def mkSaleRow (tenant_id : String) (r : SaleRecordInput) (lid : String)
    (now : Nat) : SaleRow :=
  { tenant_id := tenant_id
    local_id := lid
    sale_date := resolveDate r.date now
    store_name := r.store.getD "Unknown"
    customer_name := r.customer.getD "Walk-in"
    cashier_name := r.cashier.getD ""
    pay_mode := r.paymode.getD "Cash"
    total_amount := r.total.getD 0 }

/-- Whether a row with natural key `(tenant_id, local_id)` exists in `sales`. -/
def saleKeyPresent (tenant_id local_id : String) (sales : List SaleRow) : Bool :=
  sales.any (fun s => s.tenant_id == tenant_id && s.local_id == local_id)

/-- The `INSERT INTO sales ... ON CONFLICT (tenant_id, local_id) DO NOTHING`
statement. -/
def insertIgnoreSale (row : SaleRow) (sales : List SaleRow) : List SaleRow :=
  if saleKeyPresent row.tenant_id row.local_id sales then sales
  else sales ++ [row]

/-- The parameter binding of the `INSERT INTO sale_items` statement. -/
def mkSaleItemRow (tenant_id lid : String) (it : SaleItemInput) : SaleItemRow :=
  { tenant_id := tenant_id
    sale_local_id := lid
    item_name := it.name.getD "Unknown Item"
    quantity := it.qty.getD 0
    price := it.price.getD 0
    total := it.total.getD 0
    cog := it.cog.getD 0 }

/-- Loop state of the `sync_sales` batch loop. -/
structure SalesLoop where
  sales : List SaleRow
  sale_items : List SaleItemRow
  success_count : Nat
  item_success_count : Nat
  errors : List String
deriving Repr, DecidableEq

/-- One iteration of the `sync_sales` loop: `local_id` validation, the
insert-or-ignore header write, then unconditional inserts of every nested
line item. -/
def salesStep (tenant_id : String) (now : Nat) (st : SalesLoop)
    (r : SaleRecordInput) : SalesLoop :=
  match r.local_id with
  | none =>
      { st with errors := st.errors ++
          ["Sale unknown: Missing required field: local_id"] }
  | some lid =>
      { st with
        sales := insertIgnoreSale (mkSaleRow tenant_id r lid now) st.sales
        sale_items := st.sale_items ++ r.items.map (mkSaleItemRow tenant_id lid)
        success_count := st.success_count + 1
        item_success_count := st.item_success_count + r.items.length }

/-- Response body of `/api/sync/sales`. -/
inductive SalesResult where
  | noData
  | synced (sales_count : Nat) (items_count : Nat) (errors_count : Nat)
      (errors : List String)
deriving Repr, DecidableEq

/-- `POST /api/sync/sales`: license gate first, then the batch loop with
insert-or-ignore headers and appended line items. -/
def sync_sales (p : Payload SaleRecordInput) (now : Nat) (db : DB) :
    DB × Except ApiError SalesResult :=
  match verify p now db with
  | (_, .error e) => (db, .error e)
  | (db1, .ok _) =>
      if p.data.isEmpty then (db1, .ok .noData)
      else
        let st := p.data.foldl (salesStep p.tenant_id now)
          { sales := db1.sales, sale_items := db1.sale_items,
            success_count := 0, item_success_count := 0, errors := [] }
        ({ db1 with sales := st.sales, sale_items := st.sale_items },
         .ok (.synced st.success_count st.item_success_count
            st.errors.length (st.errors.take 10)))

/-- One nested line item of a purchase record. -/
structure PurchaseItemInput where
  name : Option String
  qty : Option Rat
  price : Option Rat
  total : Option Rat
deriving Repr, DecidableEq

/-- One record of a purchases-sync batch. -/
structure PurchaseRecordInput where
  local_id : Option String
  date : Option String
  reference : Option String
  store : Option String
  supplier : Option String
  total : Option Rat
  items : List PurchaseItemInput
deriving Repr, DecidableEq

/-- The parameter binding of the `INSERT INTO purchases` statement. -/
def mkPurchaseRow (tenant_id : String) (r : PurchaseRecordInput) (lid : String)
    (now : Nat) : PurchaseRow :=
  { tenant_id := tenant_id
    local_id := lid
    purchase_date := resolveDate r.date now
    reference := r.reference.getD ""
    store_name := r.store.getD "Unknown"
    supplier_name := r.supplier.getD "Unknown"
    total_amount := r.total.getD 0 }

/-- Whether a row with key `(tenant_id, local_id)` exists in `purchases`. -/
def purchaseKeyPresent (tenant_id local_id : String)
    (purchases : List PurchaseRow) : Bool :=
  purchases.any (fun s => s.tenant_id == tenant_id && s.local_id == local_id)

/-- The `INSERT INTO purchases ... ON CONFLICT ... DO NOTHING` statement. -/
def insertIgnorePurchase (row : PurchaseRow) (purchases : List PurchaseRow) :
    List PurchaseRow :=
  if purchaseKeyPresent row.tenant_id row.local_id purchases then purchases
  else purchases ++ [row]

/-- The parameter binding of the `INSERT INTO purchase_items` statement. -/
def mkPurchaseItemRow (tenant_id lid : String) (it : PurchaseItemInput) :
    PurchaseItemRow :=
  { tenant_id := tenant_id
    purchase_local_id := lid
    item_name := it.name.getD "Unknown Item"
    quantity := it.qty.getD 0
    price := it.price.getD 0
    total := it.total.getD 0 }

/-- Loop state of the `sync_purchases` batch loop. -/
structure PurchasesLoop where
  purchases : List PurchaseRow
  purchase_items : List PurchaseItemRow
  success_count : Nat
  item_success_count : Nat
  errors : List String
deriving Repr, DecidableEq

/-- One iteration of the `sync_purchases` loop. -/
def purchasesStep (tenant_id : String) (now : Nat) (st : PurchasesLoop)
    (r : PurchaseRecordInput) : PurchasesLoop :=
  match r.local_id with
  | none =>
      { st with errors := st.errors ++
          ["Purchase unknown: Missing required field: local_id"] }
  | some lid =>
      { st with
        purchases := insertIgnorePurchase (mkPurchaseRow tenant_id r lid now) st.purchases
        purchase_items := st.purchase_items ++ r.items.map (mkPurchaseItemRow tenant_id lid)
        success_count := st.success_count + 1
        item_success_count := st.item_success_count + r.items.length }

/-- Response body of `/api/sync/purchases`. -/
inductive PurchasesResult where
  | noData
  | synced (purchases_count : Nat) (items_count : Nat) (errors_count : Nat)
      (errors : List String)
deriving Repr, DecidableEq

/-- `POST /api/sync/purchases`. -/
def sync_purchases (p : Payload PurchaseRecordInput) (now : Nat) (db : DB) :
    DB × Except ApiError PurchasesResult :=
  match verify p now db with
  | (_, .error e) => (db, .error e)
  | (db1, .ok _) =>
      if p.data.isEmpty then (db1, .ok .noData)
      else
        let st := p.data.foldl (purchasesStep p.tenant_id now)
          { purchases := db1.purchases, purchase_items := db1.purchase_items,
            success_count := 0, item_success_count := 0, errors := [] }
        ({ db1 with purchases := st.purchases, purchase_items := st.purchase_items },
         .ok (.synced st.success_count st.item_success_count
            st.errors.length (st.errors.take 10)))

/-- One nested line item of an expense record. -/
structure ExpenseItemInput where
  category : Option String
  description : Option String
  amount : Option Rat
deriving Repr, DecidableEq

/-- One record of an expenses-sync batch. -/
structure ExpenseRecordInput where
  local_id : Option String
  date : Option String
  reference : Option String
  store : Option String
  payee : Option String
  cashier : Option String
  total : Option Rat
  items : List ExpenseItemInput
deriving Repr, DecidableEq

/-- The parameter binding of the `INSERT INTO expenses` statement. -/
def mkExpenseRow (tenant_id : String) (r : ExpenseRecordInput) (lid : String)
    (now : Nat) : ExpenseRow :=
  { tenant_id := tenant_id
    local_id := lid
    expense_date := resolveDate r.date now
    reference := r.reference.getD ""
    store_name := r.store.getD "Unknown"
    payee_name := r.payee.getD ""
    cashier_name := r.cashier.getD ""
    total_amount := r.total.getD 0 }

/-- Whether a row with key `(tenant_id, local_id)` exists in `expenses`. -/
def expenseKeyPresent (tenant_id local_id : String)
    (expenses : List ExpenseRow) : Bool :=
  expenses.any (fun s => s.tenant_id == tenant_id && s.local_id == local_id)

/-- The `INSERT INTO expenses ... ON CONFLICT ... DO NOTHING` statement. -/
def insertIgnoreExpense (row : ExpenseRow) (expenses : List ExpenseRow) :
    List ExpenseRow :=
  if expenseKeyPresent row.tenant_id row.local_id expenses then expenses
  else expenses ++ [row]

/-- The parameter binding of the `INSERT INTO expense_items` statement. -/
def mkExpenseItemRow (tenant_id lid : String) (it : ExpenseItemInput) :
    ExpenseItemRow :=
  { tenant_id := tenant_id
    expense_local_id := lid
    category := it.category.getD "General"
    description := it.description.getD ""
    amount := it.amount.getD 0 }

/-- Loop state of the `sync_expenses` batch loop. -/
structure ExpensesLoop where
  expenses : List ExpenseRow
  expense_items : List ExpenseItemRow
  success_count : Nat
  item_success_count : Nat
  errors : List String
deriving Repr, DecidableEq

/-- One iteration of the `sync_expenses` loop. -/
def expensesStep (tenant_id : String) (now : Nat) (st : ExpensesLoop)
    (r : ExpenseRecordInput) : ExpensesLoop :=
  match r.local_id with
  | none =>
      { st with errors := st.errors ++
          ["Expense unknown: Missing required field: local_id"] }
  | some lid =>
      { st with
        expenses := insertIgnoreExpense (mkExpenseRow tenant_id r lid now) st.expenses
        expense_items := st.expense_items ++ r.items.map (mkExpenseItemRow tenant_id lid)
        success_count := st.success_count + 1
        item_success_count := st.item_success_count + r.items.length }

/-- Response body of `/api/sync/expenses`. -/
inductive ExpensesResult where
  | noData
  | synced (expenses_count : Nat) (items_count : Nat) (errors_count : Nat)
      (errors : List String)
deriving Repr, DecidableEq

/-- `POST /api/sync/expenses`. -/
def sync_expenses (p : Payload ExpenseRecordInput) (now : Nat) (db : DB) :
    DB × Except ApiError ExpensesResult :=
  match verify p now db with
  | (_, .error e) => (db, .error e)
  | (db1, .ok _) =>
      if p.data.isEmpty then (db1, .ok .noData)
      else
        let st := p.data.foldl (expensesStep p.tenant_id now)
          { expenses := db1.expenses, expense_items := db1.expense_items,
            success_count := 0, item_success_count := 0, errors := [] }
        ({ db1 with expenses := st.expenses, expense_items := st.expense_items },
         .ok (.synced st.success_count st.item_success_count
            st.errors.length (st.errors.take 10)))

/-- Lookup of the `items` row with natural key `(tenant_id, local_id)`. -/
def findItem (tenant_id local_id : String) (items : List ItemRow) : Option ItemRow :=
  items.find? (fun it => it.tenant_id == tenant_id && it.local_id == local_id)

/-- Whether a device heartbeat row for `device_id` bound to `tenant_id` with
`last_seen = now` is present. -/
def devicePresent (device_id tenant_id : String) (now : Nat)
    (devices : List DeviceRow) : Bool :=
  devices.any (fun d =>
    d.device_id == device_id && d.tenant_id == tenant_id && d.last_seen == now)

/-- The `sale_items` rows a sales batch appends: for each record that passes
the `local_id` validation, one row per nested item, in order. -/
def emittedSaleItems (tid : String) : List SaleRecordInput → List SaleItemRow
  | [] => []
  | r :: rs =>
      (match r.local_id with
       | some lid => r.items.map (mkSaleItemRow tid lid)
       | none => []) ++ emittedSaleItems tid rs

/-- The `purchase_items` rows a sales batch appends: for each record that passes
the `local_id` validation, one row per nested item, in order. -/
def emittedPurchaseItems (tid : String) : List PurchaseRecordInput → List PurchaseItemRow
  | [] => []
  | r :: rs =>
      (match r.local_id with
       | some lid => r.items.map (mkPurchaseItemRow tid lid)
       | none => []) ++ emittedPurchaseItems tid rs

/-- The `expense_items` rows a sales batch appends: for each record that passes
the `local_id` validation, one row per nested item, in order. -/
def emittedExpenseItems (tid : String) : List ExpenseRecordInput → List ExpenseItemRow
  | [] => []
  | r :: rs =>
      (match r.local_id with
       | some lid => r.items.map (mkExpenseItemRow tid lid)
       | none => []) ++ emittedExpenseItems tid rs

/-- An active tenant used by concrete instances. -/
def baseTenant : TenantRow :=
  { tenant_id := "T1", license_key := "K1", subscription_status := "active",
    company_name := "Acme", period_end := none, override := false }

/-- A store holding only the active tenant `baseTenant`. -/
def dbActive : DB :=
  { tenants := [baseTenant], devices := [], items := [], sales := [],
    sale_items := [], purchases := [], purchase_items := [], expenses := [],
    expense_items := [] }

/-- A store with no tenants at all. -/
def dbEmpty : DB :=
  { tenants := [], devices := [], items := [], sales := [], sale_items := [],
    purchases := [], purchase_items := [], expenses := [], expense_items := [] }

/-- A request presenting `baseTenant`'s credentials from device `D1`. -/
def mkPayload {α : Type} (data : List α) : Payload α :=
  { tenant_id := "T1", license_key := "K1", device_id := "D1",
    data := data, batch_id := none }

/-- A tenant whose `period_end` has passed and whose override flag is not
set, but whose `subscription_status` is still `active`. -/
def expiredTenant : TenantRow :=
  { tenant_id := "T3", license_key := "K3", subscription_status := "active",
    company_name := "Gamma", period_end := some 0, override := false }

/-- A store holding only `expiredTenant`. -/
def dbExpired : DB :=
  { tenants := [expiredTenant], devices := [], items := [], sales := [],
    sale_items := [], purchases := [], purchase_items := [], expenses := [],
    expense_items := [] }

/-- A suspended tenant with the manual override flag set. -/
def suspendedOverrideTenant : TenantRow :=
  { tenant_id := "T2", license_key := "K2", subscription_status := "suspended",
    company_name := "Beta", period_end := none, override := true }

/-- A store holding only `suspendedOverrideTenant`. -/
def dbSuspendedOverride : DB :=
  { tenants := [suspendedOverrideTenant], devices := [], items := [],
    sales := [], sale_items := [], purchases := [], purchase_items := [],
    expenses := [], expense_items := [] }

/-- A concrete nested sale line item. -/
def saleItemX : SaleItemInput :=
  { name := some "Cola", qty := some 2, price := some 3, total := some 6,
    cog := some 4 }

/-- A concrete sale record with one nested line item. -/
def saleRecX : SaleRecordInput :=
  { local_id := some "S1", date := some "2024-01-01", store := some "Main",
    customer := none, cashier := none, paymode := none, total := some 6,
    items := [saleItemX] }

/-- A concrete purchase record with one nested line item. -/
def purchaseRecX : PurchaseRecordInput :=
  { local_id := some "P1", date := none, reference := some "R1",
    store := some "Main", supplier := some "Supp", total := some 5,
    items := [{ name := some "Box", qty := some 1, price := some 5,
                total := some 5 }] }

/-- A concrete expense record with one nested line item. -/
def expenseRecX : ExpenseRecordInput :=
  { local_id := some "E1", date := none, reference := none,
    store := some "Main", payee := some "Util", cashier := none,
    total := some 8,
    items := [{ category := some "Power", description := some "bill",
                amount := some 8 }] }

/-- The per-record error list of a `/api/sync/sales` response body. -/
def salesRespErrors : Except ApiError SalesResult → List String
  | .ok (.synced _ _ _ es) => es
  | _ => []

/-- First record of the partial-failure scenario (valid, `local_id = "A"`). -/
def saleRecA : SaleRecordInput :=
  { local_id := some "A", date := some "2024-02-01", store := some "Main",
    customer := none, cashier := none, paymode := none, total := some 10,
    items := [] }

/-- Second record of the partial-failure scenario: no `local_id`. -/
def saleRecBad : SaleRecordInput :=
  { local_id := none, date := some "2024-02-02", store := some "Main",
    customer := none, cashier := none, paymode := none, total := some 20,
    items := [] }

/-- Third record of the partial-failure scenario (valid, `local_id = "C"`). -/
def saleRecC : SaleRecordInput :=
  { local_id := some "C", date := some "2024-02-03", store := some "Main",
    customer := none, cashier := none, paymode := none, total := some 30,
    items := [] }

/-- A first item record for the catalog scenario (`selling_price 5`). -/
def itemRec1 : ItemRecordInput :=
  { local_id := some "I1", name := some "Widget", code := some "W",
    category := none, cost := some 2, price := some 5, wholesale := some 4,
    stock := some 10 }

/-- A replay of the same catalog item with a different `selling_price 9`. -/
def itemRec2 : ItemRecordInput :=
  { local_id := some "I1", name := some "Widget", code := some "W",
    category := none, cost := some 2, price := some 9, wholesale := some 4,
    stock := some 12 }

theorem verify_fst_spec {α : Type} (p : Payload α) (now : Nat) (db : DB) :
    (verify p now db).1 = { db with devices := ((verify p now db).1).devices } := by
  unfold verify
  cases hf : findTenant p.tenant_id p.license_key db with
  | none => rfl
  | some t =>
      dsimp only
      split <;> rfl

theorem verify_snd_congr {α β : Type} (p : Payload α) (q : Payload β)
    (now now' : Nat) (db db' : DB) (ht : db'.tenants = db.tenants)
    (h1 : q.tenant_id = p.tenant_id) (h2 : q.license_key = p.license_key)
    (h3 : q.device_id = p.device_id) :
    (verify q now' db').2 = (verify p now db).2 := by
  unfold verify findTenant
  rw [ht, h1, h2, h3]
  cases hf : db.tenants.find?
      (fun t => t.tenant_id == p.tenant_id && t.license_key == p.license_key) with
  | none => rfl
  | some t =>
      dsimp only
      split <;> rfl

theorem verify_fst_of_error {α : Type} (p : Payload α) (now : Nat) (db : DB)
    (h : (verify p now db).2.isOk = false) : (verify p now db).1 = db := by
  unfold verify at *
  cases hf : findTenant p.tenant_id p.license_key db with
  | none => rfl
  | some t =>
      rw [hf] at h
      dsimp only at h ⊢
      split
      · rename_i hs
        rw [if_pos hs] at h
        simp [Except.isOk, Except.toBool] at h
      · rfl

theorem devicePresent_upsert (device_id tenant_id : String) (now : Nat)
    (ds : List DeviceRow) :
    devicePresent device_id tenant_id now (upsertDevice device_id tenant_id now ds) = true := by
  unfold upsertDevice devicePresent
  split
  · rename_i h
    rw [List.any_map]
    rcases List.any_eq_true.mp h with ⟨d, hd, hdev⟩
    refine List.any_eq_true.mpr ⟨d, hd, ?_⟩
    simp only [Function.comp]
    rw [if_pos hdev]
    simp [eq_of_beq hdev]
  · rw [List.any_append]
    simp

theorem verify_devices_heartbeat {α : Type} (p : Payload α) (now : Nat) (db : DB)
    (h : (verify p now db).2.isOk = true) :
    devicePresent p.device_id p.tenant_id now ((verify p now db).1).devices = true := by
  unfold verify at *
  cases hf : findTenant p.tenant_id p.license_key db with
  | none =>
      rw [hf] at h
      simp [Except.isOk, Except.toBool] at h
  | some t =>
      rw [hf] at h
      dsimp only at h ⊢
      split
      · exact devicePresent_upsert p.device_id p.tenant_id now db.devices
      · rename_i hs
        rw [if_neg hs] at h
        simp [Except.isOk, Except.toBool] at h

theorem sync_items_fst_spec (p : Payload ItemRecordInput) (now : Nat) (db : DB) :
    (sync_items p now db).1 =
      { db with devices := ((sync_items p now db).1).devices,
                items := ((sync_items p now db).1).items } := by
  unfold sync_items
  have hv := verify_fst_spec p now db
  cases hverify : verify p now db with
  | mk db1 res =>
      rw [hverify] at hv
      cases res with
      | error e => rfl
      | ok v =>
          dsimp only at hv ⊢
          split
          · rw [hv]
          · rw [hv]

theorem sync_sales_fst_spec (p : Payload SaleRecordInput) (now : Nat) (db : DB) :
    (sync_sales p now db).1 =
      { db with devices := ((sync_sales p now db).1).devices,
                sales := ((sync_sales p now db).1).sales,
                sale_items := ((sync_sales p now db).1).sale_items } := by
  unfold sync_sales
  have hv := verify_fst_spec p now db
  cases hverify : verify p now db with
  | mk db1 res =>
      rw [hverify] at hv
      cases res with
      | error e => rfl
      | ok v =>
          dsimp only at hv ⊢
          split
          · rw [hv]
          · rw [hv]

theorem sync_purchases_fst_spec (p : Payload PurchaseRecordInput) (now : Nat) (db : DB) :
    (sync_purchases p now db).1 =
      { db with devices := ((sync_purchases p now db).1).devices,
                purchases := ((sync_purchases p now db).1).purchases,
                purchase_items := ((sync_purchases p now db).1).purchase_items } := by
  unfold sync_purchases
  have hv := verify_fst_spec p now db
  cases hverify : verify p now db with
  | mk db1 res =>
      rw [hverify] at hv
      cases res with
      | error e => rfl
      | ok v =>
          dsimp only at hv ⊢
          split
          · rw [hv]
          · rw [hv]

theorem sync_expenses_fst_spec (p : Payload ExpenseRecordInput) (now : Nat) (db : DB) :
    (sync_expenses p now db).1 =
      { db with devices := ((sync_expenses p now db).1).devices,
                expenses := ((sync_expenses p now db).1).expenses,
                expense_items := ((sync_expenses p now db).1).expense_items } := by
  unfold sync_expenses
  have hv := verify_fst_spec p now db
  cases hverify : verify p now db with
  | mk db1 res =>
      rw [hverify] at hv
      cases res with
      | error e => rfl
      | ok v =>
          dsimp only at hv ⊢
          split
          · rw [hv]
          · rw [hv]

theorem saleKeyPresent_insertIgnore_of (row : SaleRow) (l : List SaleRow)
    (a b : String) (h : saleKeyPresent a b l = true) :
    saleKeyPresent a b (insertIgnoreSale row l) = true := by
  unfold insertIgnoreSale
  split
  · exact h
  · unfold saleKeyPresent at *
    rw [List.any_append, h]
    rfl

theorem saleKeyPresent_insertIgnore_self (row : SaleRow) (l : List SaleRow) :
    saleKeyPresent row.tenant_id row.local_id (insertIgnoreSale row l) = true := by
  unfold insertIgnoreSale
  split
  · assumption
  · unfold saleKeyPresent
    rw [List.any_append]
    simp

theorem salesStep_mono (tid : String) (now : Nat) (st : SalesLoop)
    (r : SaleRecordInput) (a b : String) (h : saleKeyPresent a b st.sales = true) :
    saleKeyPresent a b (salesStep tid now st r).sales = true := by
  unfold salesStep
  cases r.local_id with
  | none => exact h
  | some lid =>
      dsimp only
      exact saleKeyPresent_insertIgnore_of _ _ _ _ h

theorem salesFold_mono (tid : String) (now : Nat) (a b : String) :
    ∀ (data : List SaleRecordInput) (st : SalesLoop),
      saleKeyPresent a b st.sales = true →
      saleKeyPresent a b ((data.foldl (salesStep tid now) st)).sales = true := by
  intro data
  induction data with
  | nil => intro st h; exact h
  | cons r rs ih =>
      intro st h
      rw [List.foldl_cons]
      exact ih _ (salesStep_mono _ _ _ _ _ _ h)

theorem salesFold_key_present (tid : String) (now : Nat) (lid : String) :
    ∀ (data : List SaleRecordInput) (st : SalesLoop) (r : SaleRecordInput),
      r ∈ data → r.local_id = some lid →
      saleKeyPresent tid lid ((data.foldl (salesStep tid now) st)).sales = true := by
  intro data
  induction data with
  | nil =>
      intro st r hr _
      exact absurd hr (List.not_mem_nil r)
  | cons q rs ih =>
      intro st r hr hlid
      rw [List.foldl_cons]
      rcases List.mem_cons.mp hr with hq | hq
      · subst hq
        apply salesFold_mono
        unfold salesStep
        rw [hlid]
        dsimp only
        exact saleKeyPresent_insertIgnore_self _ _
      · exact ih _ _ hq hlid

theorem salesStep_sales_eq (tid : String) (now : Nat) (st : SalesLoop)
    (r : SaleRecordInput)
    (h : ∀ lid, r.local_id = some lid → saleKeyPresent tid lid st.sales = true) :
    (salesStep tid now st r).sales = st.sales := by
  unfold salesStep
  cases hr : r.local_id with
  | none => rfl
  | some lid =>
      dsimp only
      unfold insertIgnoreSale
      split
      · rfl
      · rename_i hc
        exact absurd (h lid hr) hc

theorem salesFold_sales_eq (tid : String) (now : Nat) :
    ∀ (data : List SaleRecordInput) (st : SalesLoop),
      (∀ r ∈ data, ∀ lid, r.local_id = some lid →
        saleKeyPresent tid lid st.sales = true) →
      ((data.foldl (salesStep tid now) st)).sales = st.sales := by
  intro data
  induction data with
  | nil => intro st _; rfl
  | cons q rs ih =>
      intro st h
      rw [List.foldl_cons]
      have hq : (salesStep tid now st q).sales = st.sales :=
        salesStep_sales_eq _ _ _ _ (fun lid hl => h q (List.mem_cons_self _ _) lid hl)
      have hpre : ∀ r ∈ rs, ∀ lid, r.local_id = some lid →
          saleKeyPresent tid lid (salesStep tid now st q).sales = true := by
        intro r hr lid hl
        rw [hq]
        exact h r (List.mem_cons_of_mem _ hr) lid hl
      rw [ih _ hpre, hq]

theorem salesFold_sale_items (tid : String) (now : Nat) :
    ∀ (data : List SaleRecordInput) (st : SalesLoop),
      ((data.foldl (salesStep tid now) st)).sale_items =
        st.sale_items ++ emittedSaleItems tid data := by
  intro data
  induction data with
  | nil => intro st; simp [emittedSaleItems]
  | cons q rs ih =>
      intro st
      rw [List.foldl_cons, ih]
      cases hq : q.local_id with
      | none =>
          unfold salesStep
          rw [hq]
          dsimp only
          simp [emittedSaleItems, hq]
      | some lid =>
          unfold salesStep
          rw [hq]
          dsimp only
          simp [emittedSaleItems, hq, List.append_assoc]

theorem purchaseKeyPresent_insertIgnore_of (row : PurchaseRow) (l : List PurchaseRow)
    (a b : String) (h : purchaseKeyPresent a b l = true) :
    purchaseKeyPresent a b (insertIgnorePurchase row l) = true := by
  unfold insertIgnorePurchase
  split
  · exact h
  · unfold purchaseKeyPresent at *
    rw [List.any_append, h]
    rfl

theorem purchaseKeyPresent_insertIgnore_self (row : PurchaseRow) (l : List PurchaseRow) :
    purchaseKeyPresent row.tenant_id row.local_id (insertIgnorePurchase row l) = true := by
  unfold insertIgnorePurchase
  split
  · assumption
  · unfold purchaseKeyPresent
    rw [List.any_append]
    simp

theorem purchasesStep_mono (tid : String) (now : Nat) (st : PurchasesLoop)
    (r : PurchaseRecordInput) (a b : String) (h : purchaseKeyPresent a b st.purchases = true) :
    purchaseKeyPresent a b (purchasesStep tid now st r).purchases = true := by
  unfold purchasesStep
  cases r.local_id with
  | none => exact h
  | some lid =>
      dsimp only
      exact purchaseKeyPresent_insertIgnore_of _ _ _ _ h

theorem purchasesFold_mono (tid : String) (now : Nat) (a b : String) :
    ∀ (data : List PurchaseRecordInput) (st : PurchasesLoop),
      purchaseKeyPresent a b st.purchases = true →
      purchaseKeyPresent a b ((data.foldl (purchasesStep tid now) st)).purchases = true := by
  intro data
  induction data with
  | nil => intro st h; exact h
  | cons r rs ih =>
      intro st h
      rw [List.foldl_cons]
      exact ih _ (purchasesStep_mono _ _ _ _ _ _ h)

theorem purchasesFold_key_present (tid : String) (now : Nat) (lid : String) :
    ∀ (data : List PurchaseRecordInput) (st : PurchasesLoop) (r : PurchaseRecordInput),
      r ∈ data → r.local_id = some lid →
      purchaseKeyPresent tid lid ((data.foldl (purchasesStep tid now) st)).purchases = true := by
  intro data
  induction data with
  | nil =>
      intro st r hr _
      exact absurd hr (List.not_mem_nil r)
  | cons q rs ih =>
      intro st r hr hlid
      rw [List.foldl_cons]
      rcases List.mem_cons.mp hr with hq | hq
      · subst hq
        apply purchasesFold_mono
        unfold purchasesStep
        rw [hlid]
        dsimp only
        exact purchaseKeyPresent_insertIgnore_self _ _
      · exact ih _ _ hq hlid

theorem purchasesStep_sales_eq (tid : String) (now : Nat) (st : PurchasesLoop)
    (r : PurchaseRecordInput)
    (h : ∀ lid, r.local_id = some lid → purchaseKeyPresent tid lid st.purchases = true) :
    (purchasesStep tid now st r).purchases = st.purchases := by
  unfold purchasesStep
  cases hr : r.local_id with
  | none => rfl
  | some lid =>
      dsimp only
      unfold insertIgnorePurchase
      split
      · rfl
      · rename_i hc
        exact absurd (h lid hr) hc

theorem purchasesFold_sales_eq (tid : String) (now : Nat) :
    ∀ (data : List PurchaseRecordInput) (st : PurchasesLoop),
      (∀ r ∈ data, ∀ lid, r.local_id = some lid →
        purchaseKeyPresent tid lid st.purchases = true) →
      ((data.foldl (purchasesStep tid now) st)).purchases = st.purchases := by
  intro data
  induction data with
  | nil => intro st _; rfl
  | cons q rs ih =>
      intro st h
      rw [List.foldl_cons]
      have hq : (purchasesStep tid now st q).purchases = st.purchases :=
        purchasesStep_sales_eq _ _ _ _ (fun lid hl => h q (List.mem_cons_self _ _) lid hl)
      have hpre : ∀ r ∈ rs, ∀ lid, r.local_id = some lid →
          purchaseKeyPresent tid lid (purchasesStep tid now st q).purchases = true := by
        intro r hr lid hl
        rw [hq]
        exact h r (List.mem_cons_of_mem _ hr) lid hl
      rw [ih _ hpre, hq]

theorem purchasesFold_sale_items (tid : String) (now : Nat) :
    ∀ (data : List PurchaseRecordInput) (st : PurchasesLoop),
      ((data.foldl (purchasesStep tid now) st)).purchase_items =
        st.purchase_items ++ emittedPurchaseItems tid data := by
  intro data
  induction data with
  | nil => intro st; simp [emittedPurchaseItems]
  | cons q rs ih =>
      intro st
      rw [List.foldl_cons, ih]
      cases hq : q.local_id with
      | none =>
          unfold purchasesStep
          rw [hq]
          dsimp only
          simp [emittedPurchaseItems, hq]
      | some lid =>
          unfold purchasesStep
          rw [hq]
          dsimp only
          simp [emittedPurchaseItems, hq, List.append_assoc]

theorem expenseKeyPresent_insertIgnore_of (row : ExpenseRow) (l : List ExpenseRow)
    (a b : String) (h : expenseKeyPresent a b l = true) :
    expenseKeyPresent a b (insertIgnoreExpense row l) = true := by
  unfold insertIgnoreExpense
  split
  · exact h
  · unfold expenseKeyPresent at *
    rw [List.any_append, h]
    rfl

theorem expenseKeyPresent_insertIgnore_self (row : ExpenseRow) (l : List ExpenseRow) :
    expenseKeyPresent row.tenant_id row.local_id (insertIgnoreExpense row l) = true := by
  unfold insertIgnoreExpense
  split
  · assumption
  · unfold expenseKeyPresent
    rw [List.any_append]
    simp

theorem expensesStep_mono (tid : String) (now : Nat) (st : ExpensesLoop)
    (r : ExpenseRecordInput) (a b : String) (h : expenseKeyPresent a b st.expenses = true) :
    expenseKeyPresent a b (expensesStep tid now st r).expenses = true := by
  unfold expensesStep
  cases r.local_id with
  | none => exact h
  | some lid =>
      dsimp only
      exact expenseKeyPresent_insertIgnore_of _ _ _ _ h

theorem expensesFold_mono (tid : String) (now : Nat) (a b : String) :
    ∀ (data : List ExpenseRecordInput) (st : ExpensesLoop),
      expenseKeyPresent a b st.expenses = true →
      expenseKeyPresent a b ((data.foldl (expensesStep tid now) st)).expenses = true := by
  intro data
  induction data with
  | nil => intro st h; exact h
  | cons r rs ih =>
      intro st h
      rw [List.foldl_cons]
      exact ih _ (expensesStep_mono _ _ _ _ _ _ h)

theorem expensesFold_key_present (tid : String) (now : Nat) (lid : String) :
    ∀ (data : List ExpenseRecordInput) (st : ExpensesLoop) (r : ExpenseRecordInput),
      r ∈ data → r.local_id = some lid →
      expenseKeyPresent tid lid ((data.foldl (expensesStep tid now) st)).expenses = true := by
  intro data
  induction data with
  | nil =>
      intro st r hr _
      exact absurd hr (List.not_mem_nil r)
  | cons q rs ih =>
      intro st r hr hlid
      rw [List.foldl_cons]
      rcases List.mem_cons.mp hr with hq | hq
      · subst hq
        apply expensesFold_mono
        unfold expensesStep
        rw [hlid]
        dsimp only
        exact expenseKeyPresent_insertIgnore_self _ _
      · exact ih _ _ hq hlid

theorem expensesStep_sales_eq (tid : String) (now : Nat) (st : ExpensesLoop)
    (r : ExpenseRecordInput)
    (h : ∀ lid, r.local_id = some lid → expenseKeyPresent tid lid st.expenses = true) :
    (expensesStep tid now st r).expenses = st.expenses := by
  unfold expensesStep
  cases hr : r.local_id with
  | none => rfl
  | some lid =>
      dsimp only
      unfold insertIgnoreExpense
      split
      · rfl
      · rename_i hc
        exact absurd (h lid hr) hc

theorem expensesFold_sales_eq (tid : String) (now : Nat) :
    ∀ (data : List ExpenseRecordInput) (st : ExpensesLoop),
      (∀ r ∈ data, ∀ lid, r.local_id = some lid →
        expenseKeyPresent tid lid st.expenses = true) →
      ((data.foldl (expensesStep tid now) st)).expenses = st.expenses := by
  intro data
  induction data with
  | nil => intro st _; rfl
  | cons q rs ih =>
      intro st h
      rw [List.foldl_cons]
      have hq : (expensesStep tid now st q).expenses = st.expenses :=
        expensesStep_sales_eq _ _ _ _ (fun lid hl => h q (List.mem_cons_self _ _) lid hl)
      have hpre : ∀ r ∈ rs, ∀ lid, r.local_id = some lid →
          expenseKeyPresent tid lid (expensesStep tid now st q).expenses = true := by
        intro r hr lid hl
        rw [hq]
        exact h r (List.mem_cons_of_mem _ hr) lid hl
      rw [ih _ hpre, hq]

theorem expensesFold_sale_items (tid : String) (now : Nat) :
    ∀ (data : List ExpenseRecordInput) (st : ExpensesLoop),
      ((data.foldl (expensesStep tid now) st)).expense_items =
        st.expense_items ++ emittedExpenseItems tid data := by
  intro data
  induction data with
  | nil => intro st; simp [emittedExpenseItems]
  | cons q rs ih =>
      intro st
      rw [List.foldl_cons, ih]
      cases hq : q.local_id with
      | none =>
          unfold expensesStep
          rw [hq]
          dsimp only
          simp [emittedExpenseItems, hq]
      | some lid =>
          unfold expensesStep
          rw [hq]
          dsimp only
          simp [emittedExpenseItems, hq, List.append_assoc]

theorem itemKeyPresent_upsert_self (row : ItemRow) (now : Nat) (l : List ItemRow) :
    itemKeyPresent row.tenant_id row.local_id (upsertItem row now l) = true := by
  unfold upsertItem
  split
  · rename_i h
    unfold itemKeyPresent at h ⊢
    rw [List.any_map]
    rcases List.any_eq_true.mp h with ⟨d, hd, hkey⟩
    refine List.any_eq_true.mpr ⟨d, hd, ?_⟩
    simp only [Function.comp]
    rw [if_pos hkey]
    simp
  · unfold itemKeyPresent
    rw [List.any_append]
    simp

theorem itemKeyPresent_upsert_of (row : ItemRow) (now : Nat) (l : List ItemRow)
    (a b : String) (h : itemKeyPresent a b l = true) :
    itemKeyPresent a b (upsertItem row now l) = true := by
  unfold upsertItem
  split
  · unfold itemKeyPresent at h ⊢
    rw [List.any_map]
    rcases List.any_eq_true.mp h with ⟨d, hd, hkey⟩
    refine List.any_eq_true.mpr ⟨d, hd, ?_⟩
    simp only [Function.comp]
    by_cases hm : (d.tenant_id == row.tenant_id && d.local_id == row.local_id) = true
    · rw [if_pos hm]
      simp only [Bool.and_eq_true, beq_iff_eq] at hkey hm ⊢
      exact ⟨hm.1 ▸ hkey.1, hm.2 ▸ hkey.2⟩
    · rw [if_neg hm]
      exact hkey
  · unfold itemKeyPresent at h ⊢
    rw [List.any_append, h]
    rfl

theorem findItem_map_replace (row : ItemRow) (now : Nat) :
    ∀ (l : List ItemRow),
      itemKeyPresent row.tenant_id row.local_id l = true →
      (l.map (fun it =>
        if it.tenant_id == row.tenant_id && it.local_id == row.local_id then
          { row with updated_at := some now }
        else it)).find?
        (fun it => it.tenant_id == row.tenant_id && it.local_id == row.local_id) =
      some { row with updated_at := some now } := by
  intro l
  induction l with
  | nil =>
      intro h
      simp [itemKeyPresent] at h
  | cons d l2 ih =>
      intro h
      by_cases hd : (d.tenant_id == row.tenant_id && d.local_id == row.local_id) = true
      · rw [List.map_cons, if_pos hd, List.find?_cons_of_pos]
        simp
      · rw [List.map_cons, if_neg hd, List.find?_cons_of_neg]
        · apply ih
          unfold itemKeyPresent at h ⊢
          have hd2 : (d.tenant_id == row.tenant_id && d.local_id == row.local_id) = false :=
            Bool.eq_false_iff.mpr hd
          rw [List.any_cons, hd2, Bool.false_or] at h
          exact h
        · exact hd

theorem findItem_upsert (row : ItemRow) (now : Nat) (l : List ItemRow)
    (h : itemKeyPresent row.tenant_id row.local_id l = true) :
    findItem row.tenant_id row.local_id (upsertItem row now l) =
      some { row with updated_at := some now } := by
  unfold upsertItem findItem
  rw [if_pos h]
  exact findItem_map_replace row now l h

theorem itemsStep_mono (tid : String) (now : Nat) (st : ItemsLoop)
    (r : ItemRecordInput) (a b : String) (h : itemKeyPresent a b st.items = true) :
    itemKeyPresent a b (itemsStep tid now st r).items = true := by
  unfold itemsStep
  cases r.local_id with
  | none => exact h
  | some lid =>
      cases r.name with
      | none => exact h
      | some nm =>
          dsimp only
          exact itemKeyPresent_upsert_of _ _ _ _ _ h

theorem itemsFold_mono (tid : String) (now : Nat) (a b : String) :
    ∀ (data : List ItemRecordInput) (st : ItemsLoop),
      itemKeyPresent a b st.items = true →
      itemKeyPresent a b ((data.foldl (itemsStep tid now) st)).items = true := by
  intro data
  induction data with
  | nil => intro st h; exact h
  | cons r rs ih =>
      intro st h
      rw [List.foldl_cons]
      exact ih _ (itemsStep_mono _ _ _ _ _ _ h)

/-- C3: every batch sync endpoint invokes the License Gate before processing
any record; when the gate fails (`Unauthorized` or `SubscriptionInactive`),
the endpoint returns that same error and the stored state is exactly the
input state — no record or line-item row is written. -/
theorem claim_C3_gate_failure_aborts_batch :
    (∀ (p : Payload ItemRecordInput) (now : Nat) (db : DB) (e : ApiError),
      (verify p now db).2 = .error e → sync_items p now db = (db, .error e)) ∧
    (∀ (p : Payload SaleRecordInput) (now : Nat) (db : DB) (e : ApiError),
      (verify p now db).2 = .error e → sync_sales p now db = (db, .error e)) ∧
    (∀ (p : Payload PurchaseRecordInput) (now : Nat) (db : DB) (e : ApiError),
      (verify p now db).2 = .error e → sync_purchases p now db = (db, .error e)) ∧
    (∀ (p : Payload ExpenseRecordInput) (now : Nat) (db : DB) (e : ApiError),
      (verify p now db).2 = .error e → sync_expenses p now db = (db, .error e)) := by
  refine ⟨fun p now db e h => ?_, fun p now db e h => ?_,
    fun p now db e h => ?_, fun p now db e h => ?_⟩ <;>
  · first
    | unfold sync_items
    | unfold sync_sales
    | unfold sync_purchases
    | unfold sync_expenses
    cases hv : verify p now db with
    | mk db1 res =>
        rw [hv] at h
        dsimp only at h
        rw [h]

/-- Witness for C3 at a concrete input: with no tenant stored, the gate
fails with `Unauthorized` and the sales sync endpoint writes nothing. -/
theorem claim_C3_witness :
    sync_sales (mkPayload []) 0 dbEmpty = (dbEmpty, .error .unauthorized) :=
  claim_C3_gate_failure_aborts_batch.2.1 (mkPayload []) 0 dbEmpty
    ApiError.unauthorized (by rfl)

/-- C7: a failed `verify` call leaves the whole store — in particular the
`devices` table — unchanged: the status check precedes the heartbeat
upsert, which is unreachable on the failure paths. -/
theorem claim_C7_failed_verify_no_heartbeat {α : Type} (p : Payload α)
    (now : Nat) (db : DB) (h : (verify p now db).2.isOk = false) :
    ((verify p now db).1).devices = db.devices ∧ (verify p now db).1 = db := by
  have hdb := verify_fst_of_error p now db h
  exact ⟨by rw [hdb], hdb⟩

/-- Witness for C7 at a concrete input: verification against an empty
tenant table fails and writes no device row. -/
theorem claim_C7_witness :
    ((verify (α := Unit) (mkPayload []) 3 dbEmpty).1).devices = dbEmpty.devices ∧
    (verify (α := Unit) (mkPayload []) 3 dbEmpty).1 = dbEmpty :=
  claim_C7_failed_verify_no_heartbeat (mkPayload []) 3 dbEmpty (by rfl)

/-- C10: on an empty `data` list every sync endpoint still runs the license
gate first — the result is exactly the gate's state (so a success refreshes
the device heartbeat and a failure is returned as-is) paired with the
`No data to sync` success body mapped over the gate outcome; the first
conjunct shows a successful gate leaves the fresh heartbeat row stored. -/
theorem claim_C10_empty_batch_still_gated :
    (∀ (α : Type) (p : Payload α) (now : Nat) (db : DB),
      (verify p now db).2.isOk = true →
      devicePresent p.device_id p.tenant_id now ((verify p now db).1).devices = true) ∧
    (∀ (p : Payload ItemRecordInput) (now : Nat) (db : DB), p.data = [] →
      sync_items p now db =
        ((verify p now db).1,
         Except.map (fun _ => ItemsResult.noData) (verify p now db).2)) ∧
    (∀ (p : Payload SaleRecordInput) (now : Nat) (db : DB), p.data = [] →
      sync_sales p now db =
        ((verify p now db).1,
         Except.map (fun _ => SalesResult.noData) (verify p now db).2)) ∧
    (∀ (p : Payload PurchaseRecordInput) (now : Nat) (db : DB), p.data = [] →
      sync_purchases p now db =
        ((verify p now db).1,
         Except.map (fun _ => PurchasesResult.noData) (verify p now db).2)) ∧
    (∀ (p : Payload ExpenseRecordInput) (now : Nat) (db : DB), p.data = [] →
      sync_expenses p now db =
        ((verify p now db).1,
         Except.map (fun _ => ExpensesResult.noData) (verify p now db).2)) := by
  refine ⟨fun α p now db h => verify_devices_heartbeat p now db h,
    fun p now db h => ?_, fun p now db h => ?_,
    fun p now db h => ?_, fun p now db h => ?_⟩ <;>
  · first
    | unfold sync_items
    | unfold sync_sales
    | unfold sync_purchases
    | unfold sync_expenses
    cases hv : verify p now db with
    | mk db1 res =>
        cases res with
        | error e =>
            have hfst : (verify p now db).1 = db := by
              apply verify_fst_of_error
              rw [hv]
              rfl
            rw [hv] at hfst
            dsimp only at hfst
            rw [hfst]
            rfl
        | ok v =>
            dsimp only
            rw [h]
            rfl

/-- Witness for C10 at a concrete input: an empty sales batch against the
active tenant succeeds with the no-data body and stores the heartbeat. -/
theorem claim_C10_witness :
    devicePresent "D1" "T1" 7
      ((verify (α := SaleRecordInput) (mkPayload []) 7 dbActive).1).devices = true ∧
    sync_sales (mkPayload []) 7 dbActive =
      ((verify (α := SaleRecordInput) (mkPayload []) 7 dbActive).1,
       Except.map (fun _ => SalesResult.noData)
         (verify (α := SaleRecordInput) (mkPayload []) 7 dbActive).2) :=
  ⟨claim_C10_empty_batch_still_gated.1 SaleRecordInput (mkPayload []) 7 dbActive (by rfl),
   claim_C10_empty_batch_still_gated.2.2.1 (mkPayload []) 7 dbActive rfl⟩

/-- Counterexample to C5: at time 100 the tenant `expiredTenant` has
`period_end = some 0` (long past) and no override, yet `verify` succeeds
(it does not fail with `SubscriptionInactive`) and the stored tenant row is
unchanged — `subscription_status` stays `"active"`, never `"expired"`. -/
theorem claim_C5_counterexample :
    expiredTenant.period_end = some 0 ∧ expiredTenant.override = false ∧
    (verify (α := Unit)
      { tenant_id := "T3", license_key := "K3", device_id := "D3",
        data := [], batch_id := none } 100 dbExpired).2.isOk = true ∧
    ((verify (α := Unit)
      { tenant_id := "T3", license_key := "K3", device_id := "D3",
        data := [], batch_id := none } 100 dbExpired).1).tenants = dbExpired.tenants ∧
    expiredTenant.subscription_status = "active" :=
  ⟨rfl, rfl, rfl, rfl, rfl⟩

/-- C5 (amended): `verify` performs no expiry transition at all — it never
modifies the `tenants` table, and it succeeds exactly when the
`(tenant_id, license_key)` lookup matches a row whose
`subscription_status` is `"active"`; `period_end` and the override flag are
never consulted. -/
theorem claim_C5_amended_no_expiry_transition {α : Type} (p : Payload α)
    (now : Nat) (db : DB) :
    ((verify p now db).1).tenants = db.tenants ∧
    ((verify p now db).2.isOk = true ↔
      ∃ t, findTenant p.tenant_id p.license_key db = some t ∧
        t.subscription_status = "active") := by
  constructor
  · rw [verify_fst_spec]
  · unfold verify
    cases hf : findTenant p.tenant_id p.license_key db with
    | none =>
        dsimp only
        constructor
        · intro h
          simp [Except.isOk, Except.toBool] at h
        · rintro ⟨t, ht, _⟩
          cases ht
    | some t =>
        dsimp only
        by_cases hs : (t.subscription_status == "active") = true
        · rw [if_pos hs]
          constructor
          · intro _
            exact ⟨t, rfl, eq_of_beq hs⟩
          · intro _
            rfl
        · rw [if_neg hs]
          constructor
          · intro h
            simp [Except.isOk, Except.toBool] at h
          · rintro ⟨t2, ht2, hact⟩
            cases ht2
            exact absurd hact (fun hEq => hs (by rw [hEq]; rfl))

/-- Witness for the amended C5 at a concrete input: against `dbActive` the
lookup matches the active tenant, so `verify` succeeds and the tenant
table is untouched. -/
theorem claim_C5_witness :
    ((verify (α := Unit) (mkPayload []) 9 dbActive).1).tenants = dbActive.tenants ∧
    (verify (α := Unit) (mkPayload []) 9 dbActive).2.isOk = true :=
  ⟨(claim_C5_amended_no_expiry_transition (mkPayload []) 9 dbActive).1,
   (claim_C5_amended_no_expiry_transition (mkPayload []) 9 dbActive).2.mpr
     ⟨baseTenant, rfl, rfl⟩⟩

/-- Counterexample to C6: the tenant matches and its manual override flag IS
set, yet `verify` still fails with `SubscriptionInactive` — so the failure
condition is not "status not active and no override".  Moreover the two
error kinds carry the same HTTP status code 401, not distinct classes. -/
theorem claim_C6_counterexample :
    suspendedOverrideTenant.override = true ∧
    (verify (α := Unit)
      { tenant_id := "T2", license_key := "K2", device_id := "D2",
        data := [], batch_id := none } 0 dbSuspendedOverride).2
      = .error (.subscriptionInactive "suspended") ∧
    ApiError.statusCode (.subscriptionInactive "suspended")
      = ApiError.statusCode .unauthorized :=
  ⟨rfl, rfl, rfl⟩

/-- C6 (amended): `verify` fails with `Unauthorized` exactly when no tenant
row matches the presented `(tenant_id, license_key)`, and fails with
`SubscriptionInactive` exactly when the lookup matches a tenant whose
`subscription_status` is not `"active"` — regardless of any override flag;
both failures are HTTP 401, distinguished only by the detail message. -/
theorem claim_C6_amended_error_conditions {α : Type} (p : Payload α)
    (now : Nat) (db : DB) :
    ((verify p now db).2 = .error .unauthorized ↔
      findTenant p.tenant_id p.license_key db = none) ∧
    (∀ st, (verify p now db).2 = .error (.subscriptionInactive st) ↔
      ∃ t, findTenant p.tenant_id p.license_key db = some t ∧
        t.subscription_status = st ∧ st ≠ "active") ∧
    (∀ e, (verify p now db).2 = .error e → ApiError.statusCode e = 401) := by
  unfold verify
  cases hf : findTenant p.tenant_id p.license_key db with
  | none =>
      dsimp only
      refine ⟨by simp, fun st => ?_, fun e he => ?_⟩
      · constructor
        · intro h
          simp at h
        · rintro ⟨t, ht, _⟩
          cases ht
      · cases he
        rfl
  | some t =>
      dsimp only
      by_cases hs : (t.subscription_status == "active") = true
      · rw [if_pos hs]
        refine ⟨by simp, fun st => ?_, fun e he => ?_⟩
        · constructor
          · intro h
            simp at h
          · rintro ⟨t2, ht2, hst, hne⟩
            cases ht2
            exact absurd (eq_of_beq hs ▸ hst).symm hne
        · cases he
      · rw [if_neg hs]
        have hne : t.subscription_status ≠ "active" :=
          fun hEq => hs (by rw [hEq]; rfl)
        refine ⟨by simp, fun st => ?_, fun e he => ?_⟩
        · constructor
          · intro h
            simp only [Except.error.injEq, ApiError.subscriptionInactive.injEq] at h
            exact ⟨t, rfl, h, h ▸ hne⟩
          · rintro ⟨t2, ht2, hst, _⟩
            cases ht2
            rw [hst]
        · simp only [Except.error.injEq] at he
          rw [← he]
          rfl

/-- Witness for the amended C6 at a concrete input: against an empty tenant
table the characterization yields the `Unauthorized` failure. -/
theorem claim_C6_witness :
    (verify (α := Unit) (mkPayload []) 0 dbEmpty).2 = .error .unauthorized :=
  (claim_C6_amended_error_conditions (mkPayload []) 0 dbEmpty).1.mpr rfl

theorem sync_sales_of_verify_error (p : Payload SaleRecordInput) (now : Nat)
    (db : DB) (e : ApiError) (h : (verify p now db).2 = .error e) :
    sync_sales p now db = (db, .error e) := by
  unfold sync_sales
  cases hv : verify p now db with
  | mk db1 res =>
      rw [hv] at h
      dsimp only at h
      rw [h]

theorem sync_sales_gate_of_ok (p : Payload SaleRecordInput) (now : Nat)
    (db : DB) (h : (sync_sales p now db).2.isOk = true) :
    (verify p now db).2.isOk = true := by
  unfold sync_sales at h
  cases hv : verify p now db with
  | mk db1 res =>
      rw [hv] at h
      cases res with
      | error e => simp [Except.isOk, Except.toBool] at h
      | ok v => rfl

theorem sync_sales_ok_of_gate (p : Payload SaleRecordInput) (now : Nat)
    (db : DB) (h : (verify p now db).2.isOk = true) :
    (sync_sales p now db).2.isOk = true := by
  unfold sync_sales
  cases hv : verify p now db with
  | mk db1 res =>
      rw [hv] at h
      cases res with
      | error e => simp [Except.isOk, Except.toBool] at h
      | ok v =>
          dsimp only
          split
          · rfl
          · rfl

theorem sync_sales_key_present (p : Payload SaleRecordInput) (now : Nat)
    (db : DB) (r : SaleRecordInput) (lid : String)
    (hok : (verify p now db).2.isOk = true) (hr : r ∈ p.data)
    (hlid : r.local_id = some lid) :
    saleKeyPresent p.tenant_id lid ((sync_sales p now db).1).sales = true := by
  unfold sync_sales
  cases hv : verify p now db with
  | mk dbv res =>
      rw [hv] at hok
      cases res with
      | error e => simp [Except.isOk, Except.toBool] at hok
      | ok v =>
          dsimp only
          have hne : p.data.isEmpty = false := by
            cases hd : p.data with
            | nil => rw [hd] at hr; exact absurd hr (List.not_mem_nil r)
            | cons a l => rfl
          rw [if_neg (by rw [hne]; exact Bool.false_ne_true)]
          exact salesFold_key_present p.tenant_id now lid p.data _ r hr hlid

theorem sync_sales_sales_noop (p : Payload SaleRecordInput) (now : Nat) (db : DB)
    (hpre : ∀ r ∈ p.data, ∀ lid, r.local_id = some lid →
      saleKeyPresent p.tenant_id lid db.sales = true) :
    ((sync_sales p now db).1).sales = db.sales := by
  unfold sync_sales
  cases hv : verify p now db with
  | mk dbv res =>
      cases res with
      | error e => rfl
      | ok v =>
          dsimp only
          have hdbv : dbv.sales = db.sales := by
            have h := verify_fst_spec p now db
            rw [hv] at h
            dsimp only at h
            rw [h]
          split
          · exact hdbv
          · dsimp only
            rw [salesFold_sales_eq]
            · exact hdbv
            · intro r hr lid hl
              dsimp only
              rw [hdbv]
              exact hpre r hr lid hl

theorem sync_sales_replay (p : Payload SaleRecordInput) (now now2 : Nat) (db : DB) :
    ((sync_sales p now2 (sync_sales p now db).1).1).sales
      = ((sync_sales p now db).1).sales := by
  cases hv2 : (verify p now2 (sync_sales p now db).1).2 with
  | error e =>
      rw [sync_sales_of_verify_error p now2 _ e hv2]
  | ok v =>
      have htenants : ((sync_sales p now db).1).tenants = db.tenants := by
        rw [sync_sales_fst_spec]
      have hok1 : (verify p now db).2 = .ok v := by
        rw [← verify_snd_congr p p now now2 db _ htenants rfl rfl rfl, hv2]
      apply sync_sales_sales_noop
      intro r hr lid hl
      exact sync_sales_key_present p now db r lid (by rw [hok1]; rfl) hr hl

theorem sync_sales_sale_items_append (p : Payload SaleRecordInput) (now : Nat)
    (db : DB) (hok : (verify p now db).2.isOk = true) :
    ((sync_sales p now db).1).sale_items =
      db.sale_items ++ emittedSaleItems p.tenant_id p.data := by
  unfold sync_sales
  cases hv : verify p now db with
  | mk dbv res =>
      rw [hv] at hok
      cases res with
      | error e => simp [Except.isOk, Except.toBool] at hok
      | ok v =>
          dsimp only
          have hdbv : dbv.sale_items = db.sale_items := by
            have h := verify_fst_spec p now db
            rw [hv] at h
            dsimp only at h
            rw [h]
          split
          · rename_i hemp
            have : p.data = [] := List.isEmpty_iff.mp hemp
            rw [this]
            dsimp [emittedSaleItems]
            rw [List.append_nil]
            exact hdbv
          · dsimp only
            rw [salesFold_sale_items]
            dsimp only
            rw [hdbv]
theorem sync_purchases_of_verify_error (p : Payload PurchaseRecordInput) (now : Nat)
    (db : DB) (e : ApiError) (h : (verify p now db).2 = .error e) :
    sync_purchases p now db = (db, .error e) := by
  unfold sync_purchases
  cases hv : verify p now db with
  | mk db1 res =>
      rw [hv] at h
      dsimp only at h
      rw [h]

theorem sync_purchases_gate_of_ok (p : Payload PurchaseRecordInput) (now : Nat)
    (db : DB) (h : (sync_purchases p now db).2.isOk = true) :
    (verify p now db).2.isOk = true := by
  unfold sync_purchases at h
  cases hv : verify p now db with
  | mk db1 res =>
      rw [hv] at h
      cases res with
      | error e => simp [Except.isOk, Except.toBool] at h
      | ok v => rfl

theorem sync_purchases_ok_of_gate (p : Payload PurchaseRecordInput) (now : Nat)
    (db : DB) (h : (verify p now db).2.isOk = true) :
    (sync_purchases p now db).2.isOk = true := by
  unfold sync_purchases
  cases hv : verify p now db with
  | mk db1 res =>
      rw [hv] at h
      cases res with
      | error e => simp [Except.isOk, Except.toBool] at h
      | ok v =>
          dsimp only
          split
          · rfl
          · rfl

theorem sync_purchases_key_present (p : Payload PurchaseRecordInput) (now : Nat)
    (db : DB) (r : PurchaseRecordInput) (lid : String)
    (hok : (verify p now db).2.isOk = true) (hr : r ∈ p.data)
    (hlid : r.local_id = some lid) :
    purchaseKeyPresent p.tenant_id lid ((sync_purchases p now db).1).purchases = true := by
  unfold sync_purchases
  cases hv : verify p now db with
  | mk dbv res =>
      rw [hv] at hok
      cases res with
      | error e => simp [Except.isOk, Except.toBool] at hok
      | ok v =>
          dsimp only
          have hne : p.data.isEmpty = false := by
            cases hd : p.data with
            | nil => rw [hd] at hr; exact absurd hr (List.not_mem_nil r)
            | cons a l => rfl
          rw [if_neg (by rw [hne]; exact Bool.false_ne_true)]
          exact purchasesFold_key_present p.tenant_id now lid p.data _ r hr hlid

theorem sync_purchases_purchases_noop (p : Payload PurchaseRecordInput) (now : Nat) (db : DB)
    (hpre : ∀ r ∈ p.data, ∀ lid, r.local_id = some lid →
      purchaseKeyPresent p.tenant_id lid db.purchases = true) :
    ((sync_purchases p now db).1).purchases = db.purchases := by
  unfold sync_purchases
  cases hv : verify p now db with
  | mk dbv res =>
      cases res with
      | error e => rfl
      | ok v =>
          dsimp only
          have hdbv : dbv.purchases = db.purchases := by
            have h := verify_fst_spec p now db
            rw [hv] at h
            dsimp only at h
            rw [h]
          split
          · exact hdbv
          · dsimp only
            rw [purchasesFold_sales_eq]
            · exact hdbv
            · intro r hr lid hl
              dsimp only
              rw [hdbv]
              exact hpre r hr lid hl

theorem sync_purchases_replay (p : Payload PurchaseRecordInput) (now now2 : Nat) (db : DB) :
    ((sync_purchases p now2 (sync_purchases p now db).1).1).purchases
      = ((sync_purchases p now db).1).purchases := by
  cases hv2 : (verify p now2 (sync_purchases p now db).1).2 with
  | error e =>
      rw [sync_purchases_of_verify_error p now2 _ e hv2]
  | ok v =>
      have htenants : ((sync_purchases p now db).1).tenants = db.tenants := by
        rw [sync_purchases_fst_spec]
      have hok1 : (verify p now db).2 = .ok v := by
        rw [← verify_snd_congr p p now now2 db _ htenants rfl rfl rfl, hv2]
      apply sync_purchases_purchases_noop
      intro r hr lid hl
      exact sync_purchases_key_present p now db r lid (by rw [hok1]; rfl) hr hl

theorem sync_purchases_purchase_items_append (p : Payload PurchaseRecordInput) (now : Nat)
    (db : DB) (hok : (verify p now db).2.isOk = true) :
    ((sync_purchases p now db).1).purchase_items =
      db.purchase_items ++ emittedPurchaseItems p.tenant_id p.data := by
  unfold sync_purchases
  cases hv : verify p now db with
  | mk dbv res =>
      rw [hv] at hok
      cases res with
      | error e => simp [Except.isOk, Except.toBool] at hok
      | ok v =>
          dsimp only
          have hdbv : dbv.purchase_items = db.purchase_items := by
            have h := verify_fst_spec p now db
            rw [hv] at h
            dsimp only at h
            rw [h]
          split
          · rename_i hemp
            have : p.data = [] := List.isEmpty_iff.mp hemp
            rw [this]
            dsimp [emittedPurchaseItems]
            rw [List.append_nil]
            exact hdbv
          · dsimp only
            rw [purchasesFold_sale_items]
            dsimp only
            rw [hdbv]
theorem sync_expenses_of_verify_error (p : Payload ExpenseRecordInput) (now : Nat)
    (db : DB) (e : ApiError) (h : (verify p now db).2 = .error e) :
    sync_expenses p now db = (db, .error e) := by
  unfold sync_expenses
  cases hv : verify p now db with
  | mk db1 res =>
      rw [hv] at h
      dsimp only at h
      rw [h]

theorem sync_expenses_gate_of_ok (p : Payload ExpenseRecordInput) (now : Nat)
    (db : DB) (h : (sync_expenses p now db).2.isOk = true) :
    (verify p now db).2.isOk = true := by
  unfold sync_expenses at h
  cases hv : verify p now db with
  | mk db1 res =>
      rw [hv] at h
      cases res with
      | error e => simp [Except.isOk, Except.toBool] at h
      | ok v => rfl

theorem sync_expenses_ok_of_gate (p : Payload ExpenseRecordInput) (now : Nat)
    (db : DB) (h : (verify p now db).2.isOk = true) :
    (sync_expenses p now db).2.isOk = true := by
  unfold sync_expenses
  cases hv : verify p now db with
  | mk db1 res =>
      rw [hv] at h
      cases res with
      | error e => simp [Except.isOk, Except.toBool] at h
      | ok v =>
          dsimp only
          split
          · rfl
          · rfl

theorem sync_expenses_key_present (p : Payload ExpenseRecordInput) (now : Nat)
    (db : DB) (r : ExpenseRecordInput) (lid : String)
    (hok : (verify p now db).2.isOk = true) (hr : r ∈ p.data)
    (hlid : r.local_id = some lid) :
    expenseKeyPresent p.tenant_id lid ((sync_expenses p now db).1).expenses = true := by
  unfold sync_expenses
  cases hv : verify p now db with
  | mk dbv res =>
      rw [hv] at hok
      cases res with
      | error e => simp [Except.isOk, Except.toBool] at hok
      | ok v =>
          dsimp only
          have hne : p.data.isEmpty = false := by
            cases hd : p.data with
            | nil => rw [hd] at hr; exact absurd hr (List.not_mem_nil r)
            | cons a l => rfl
          rw [if_neg (by rw [hne]; exact Bool.false_ne_true)]
          exact expensesFold_key_present p.tenant_id now lid p.data _ r hr hlid

theorem sync_expenses_expenses_noop (p : Payload ExpenseRecordInput) (now : Nat) (db : DB)
    (hpre : ∀ r ∈ p.data, ∀ lid, r.local_id = some lid →
      expenseKeyPresent p.tenant_id lid db.expenses = true) :
    ((sync_expenses p now db).1).expenses = db.expenses := by
  unfold sync_expenses
  cases hv : verify p now db with
  | mk dbv res =>
      cases res with
      | error e => rfl
      | ok v =>
          dsimp only
          have hdbv : dbv.expenses = db.expenses := by
            have h := verify_fst_spec p now db
            rw [hv] at h
            dsimp only at h
            rw [h]
          split
          · exact hdbv
          · dsimp only
            rw [expensesFold_sales_eq]
            · exact hdbv
            · intro r hr lid hl
              dsimp only
              rw [hdbv]
              exact hpre r hr lid hl

theorem sync_expenses_replay (p : Payload ExpenseRecordInput) (now now2 : Nat) (db : DB) :
    ((sync_expenses p now2 (sync_expenses p now db).1).1).expenses
      = ((sync_expenses p now db).1).expenses := by
  cases hv2 : (verify p now2 (sync_expenses p now db).1).2 with
  | error e =>
      rw [sync_expenses_of_verify_error p now2 _ e hv2]
  | ok v =>
      have htenants : ((sync_expenses p now db).1).tenants = db.tenants := by
        rw [sync_expenses_fst_spec]
      have hok1 : (verify p now db).2 = .ok v := by
        rw [← verify_snd_congr p p now now2 db _ htenants rfl rfl rfl, hv2]
      apply sync_expenses_expenses_noop
      intro r hr lid hl
      exact sync_expenses_key_present p now db r lid (by rw [hok1]; rfl) hr hl

theorem sync_expenses_expense_items_append (p : Payload ExpenseRecordInput) (now : Nat)
    (db : DB) (hok : (verify p now db).2.isOk = true) :
    ((sync_expenses p now db).1).expense_items =
      db.expense_items ++ emittedExpenseItems p.tenant_id p.data := by
  unfold sync_expenses
  cases hv : verify p now db with
  | mk dbv res =>
      rw [hv] at hok
      cases res with
      | error e => simp [Except.isOk, Except.toBool] at hok
      | ok v =>
          dsimp only
          have hdbv : dbv.expense_items = db.expense_items := by
            have h := verify_fst_spec p now db
            rw [hv] at h
            dsimp only at h
            rw [h]
          split
          · rename_i hemp
            have : p.data = [] := List.isEmpty_iff.mp hemp
            rw [this]
            dsimp [emittedExpenseItems]
            rw [List.append_nil]
            exact hdbv
          · dsimp only
            rw [expensesFold_sale_items]
            dsimp only
            rw [hdbv]

/-- C1: for the insert-or-ignore entities (sales, purchases and expenses
headers) submitting the same batch twice leaves the stored header table
identical to its state after the first submission: the first write for a
`(tenant_id, local_id)` wins and every replay is a no-op on the header —
no duplicate row and no field change. -/
theorem claim_C1_insert_or_ignore_idempotent :
    (∀ (p : Payload SaleRecordInput) (now now2 : Nat) (db : DB),
      ((sync_sales p now2 (sync_sales p now db).1).1).sales
        = ((sync_sales p now db).1).sales) ∧
    (∀ (p : Payload PurchaseRecordInput) (now now2 : Nat) (db : DB),
      ((sync_purchases p now2 (sync_purchases p now db).1).1).purchases
        = ((sync_purchases p now db).1).purchases) ∧
    (∀ (p : Payload ExpenseRecordInput) (now now2 : Nat) (db : DB),
      ((sync_expenses p now2 (sync_expenses p now db).1).1).expenses
        = ((sync_expenses p now db).1).expenses) :=
  ⟨sync_sales_replay, sync_purchases_replay, sync_expenses_replay⟩

/-- Counterexample to C2: submitting the same one-sale batch twice stores
TWO copies of the line item — the stored `sale_items` are an accumulation
of both submissions, not the second submission's set. -/
theorem claim_C2_counterexample :
    ((sync_sales (mkPayload [saleRecX]) 0
        (sync_sales (mkPayload [saleRecX]) 0 dbActive).1).1).sale_items
      = [mkSaleItemRow "T1" "S1" saleItemX, mkSaleItemRow "T1" "S1" saleItemX] ∧
    ([mkSaleItemRow "T1" "S1" saleItemX, mkSaleItemRow "T1" "S1" saleItemX]
      ≠ [mkSaleItemRow "T1" "S1" saleItemX]) :=
  ⟨rfl, by decide⟩

/-- C2 (amended): re-syncing a parent record does NOT replace its stored
LineItems; every successful sync APPENDS the incoming line-item rows of
each valid record to the rows already stored, so replays accumulate
duplicates (neither delete-then-reinsert nor an embedded document is
implemented). -/
theorem claim_C2_amended_line_items_accumulate :
    (∀ (p : Payload SaleRecordInput) (now now2 : Nat) (db : DB),
      (sync_sales p now db).2.isOk = true →
      ((sync_sales p now2 (sync_sales p now db).1).1).sale_items
        = ((sync_sales p now db).1).sale_items
            ++ emittedSaleItems p.tenant_id p.data) ∧
    (∀ (p : Payload PurchaseRecordInput) (now now2 : Nat) (db : DB),
      (sync_purchases p now db).2.isOk = true →
      ((sync_purchases p now2 (sync_purchases p now db).1).1).purchase_items
        = ((sync_purchases p now db).1).purchase_items
            ++ emittedPurchaseItems p.tenant_id p.data) ∧
    (∀ (p : Payload ExpenseRecordInput) (now now2 : Nat) (db : DB),
      (sync_expenses p now db).2.isOk = true →
      ((sync_expenses p now2 (sync_expenses p now db).1).1).expense_items
        = ((sync_expenses p now db).1).expense_items
            ++ emittedExpenseItems p.tenant_id p.data) := by
  refine ⟨fun p now now2 db h => ?_, fun p now now2 db h => ?_,
    fun p now now2 db h => ?_⟩
  · have hg1 : (verify p now db).2.isOk = true := sync_sales_gate_of_ok p now db h
    have ht : ((sync_sales p now db).1).tenants = db.tenants := by
      rw [sync_sales_fst_spec]
    have hg2 : (verify p now2 (sync_sales p now db).1).2.isOk = true := by
      rw [verify_snd_congr p p now now2 db _ ht rfl rfl rfl]
      exact hg1
    exact sync_sales_sale_items_append p now2 _ hg2
  · have hg1 : (verify p now db).2.isOk = true := sync_purchases_gate_of_ok p now db h
    have ht : ((sync_purchases p now db).1).tenants = db.tenants := by
      rw [sync_purchases_fst_spec]
    have hg2 : (verify p now2 (sync_purchases p now db).1).2.isOk = true := by
      rw [verify_snd_congr p p now now2 db _ ht rfl rfl rfl]
      exact hg1
    exact sync_purchases_purchase_items_append p now2 _ hg2
  · have hg1 : (verify p now db).2.isOk = true := sync_expenses_gate_of_ok p now db h
    have ht : ((sync_expenses p now db).1).tenants = db.tenants := by
      rw [sync_expenses_fst_spec]
    have hg2 : (verify p now2 (sync_expenses p now db).1).2.isOk = true := by
      rw [verify_snd_congr p p now now2 db _ ht rfl rfl rfl]
      exact hg1
    exact sync_expenses_expense_items_append p now2 _ hg2

/-- Witness for the amended C2 at concrete inputs: each entity's replay of a
one-record batch appends the incoming line-item rows again. -/
theorem claim_C2_witness :
    ((sync_sales (mkPayload [saleRecX]) 1
        (sync_sales (mkPayload [saleRecX]) 0 dbActive).1).1).sale_items
      = ((sync_sales (mkPayload [saleRecX]) 0 dbActive).1).sale_items
          ++ emittedSaleItems "T1" [saleRecX] ∧
    ((sync_purchases (mkPayload [purchaseRecX]) 1
        (sync_purchases (mkPayload [purchaseRecX]) 0 dbActive).1).1).purchase_items
      = ((sync_purchases (mkPayload [purchaseRecX]) 0 dbActive).1).purchase_items
          ++ emittedPurchaseItems "T1" [purchaseRecX] ∧
    ((sync_expenses (mkPayload [expenseRecX]) 1
        (sync_expenses (mkPayload [expenseRecX]) 0 dbActive).1).1).expense_items
      = ((sync_expenses (mkPayload [expenseRecX]) 0 dbActive).1).expense_items
          ++ emittedExpenseItems "T1" [expenseRecX] :=
  ⟨claim_C2_amended_line_items_accumulate.1 (mkPayload [saleRecX]) 0 1 dbActive (by rfl),
   claim_C2_amended_line_items_accumulate.2.1 (mkPayload [purchaseRecX]) 0 1 dbActive (by rfl),
   claim_C2_amended_line_items_accumulate.2.2 (mkPayload [expenseRecX]) 0 1 dbActive (by rfl)⟩

theorem sync_sales_errors_bounded (p : Payload SaleRecordInput) (now : Nat)
    (db : DB) : (salesRespErrors (sync_sales p now db).2).length ≤ 10 := by
  unfold sync_sales
  cases hv : verify p now db with
  | mk dbv res =>
      cases res with
      | error e => simp [salesRespErrors]
      | ok v =>
          dsimp only
          split
          · simp [salesRespErrors]
          · simp only [salesRespErrors, List.length_take]
            exact min_le_left _ _

/-- C4: a malformed record never aborts the batch — whenever the gate
passes, the endpoint returns a success response, and the reported error
list holds at most the first 10 messages; concretely, a batch of 3 sale
records whose second record lacks `local_id` yields `sales_count = 2`,
`errors_count = 1`, an error message naming the missing `local_id` field,
and records 1 and 3 persisted in storage. -/
theorem claim_C4_record_failure_isolation :
    (∀ (p : Payload SaleRecordInput) (now : Nat) (db : DB),
      (verify p now db).2.isOk = true → (sync_sales p now db).2.isOk = true) ∧
    (∀ (p : Payload SaleRecordInput) (now : Nat) (db : DB),
      (salesRespErrors (sync_sales p now db).2).length ≤ 10) ∧
    (sync_sales (mkPayload [saleRecA, saleRecBad, saleRecC]) 0 dbActive).2
      = .ok (.synced 2 0 1 ["Sale unknown: Missing required field: local_id"]) ∧
    saleKeyPresent "T1" "A"
      ((sync_sales (mkPayload [saleRecA, saleRecBad, saleRecC]) 0 dbActive).1).sales
      = true ∧
    saleKeyPresent "T1" "C"
      ((sync_sales (mkPayload [saleRecA, saleRecBad, saleRecC]) 0 dbActive).1).sales
      = true :=
  ⟨sync_sales_ok_of_gate, sync_sales_errors_bounded, rfl, rfl, rfl⟩

/-- Witness for C4 at a concrete input: the gate passes for the active
tenant, so the 3-record batch with the malformed middle record still
returns a success response. -/
theorem claim_C4_witness :
    (sync_sales (mkPayload [saleRecA, saleRecBad, saleRecC]) 0 dbActive).2.isOk = true ∧
    (salesRespErrors
      (sync_sales (mkPayload [saleRecA, saleRecBad, saleRecC]) 0 dbActive).2).length ≤ 10 :=
  ⟨claim_C4_record_failure_isolation.1 (mkPayload [saleRecA, saleRecBad, saleRecC])
      0 dbActive (by rfl),
   claim_C4_record_failure_isolation.2.1 (mkPayload [saleRecA, saleRecBad, saleRecC])
      0 dbActive⟩

theorem itemsStep_valid (tid : String) (now : Nat) (st : ItemsLoop)
    (r : ItemRecordInput) (lid nm : String) (h1 : r.local_id = some lid)
    (h2 : r.name = some nm) :
    itemsStep tid now st r =
      { st with items := upsertItem (mkItemRow tid r lid) now st.items,
                success_count := st.success_count + 1 } := by
  unfold itemsStep
  rw [h1, h2]

theorem sync_items_single (p : Payload ItemRecordInput) (now : Nat) (db : DB)
    (r : ItemRecordInput) (lid nm : String) (hd : p.data = [r])
    (h1 : r.local_id = some lid) (h2 : r.name = some nm)
    (hok : (verify p now db).2.isOk = true) :
    ((sync_items p now db).1).items
      = upsertItem (mkItemRow p.tenant_id r lid) now ((verify p now db).1).items := by
  unfold sync_items
  cases hv : verify p now db with
  | mk dbv res =>
      rw [hv] at hok
      cases res with
      | error e => simp [Except.isOk, Except.toBool] at hok
      | ok v =>
          dsimp only
          rw [hd, List.isEmpty_cons, if_neg Bool.false_ne_true]
          rw [List.foldl_cons, List.foldl_nil,
            itemsStep_valid p.tenant_id now _ r lid nm h1 h2]

theorem claim_C8_items_last_write_wins (tid key dev : String)
    (now1 now2 : Nat) (db : DB) (r1 r2 : ItemRecordInput) (lid nm1 nm2 : String)
    (hok : (verify (α := ItemRecordInput)
      { tenant_id := tid, license_key := key, device_id := dev,
        data := [r1], batch_id := none } now1 db).2.isOk = true)
    (h1 : r1.local_id = some lid) (h1n : r1.name = some nm1)
    (h2 : r2.local_id = some lid) (h2n : r2.name = some nm2) :
    findItem tid lid
      ((sync_items
        { tenant_id := tid, license_key := key, device_id := dev,
          data := [r2], batch_id := none } now2
        (sync_items
          { tenant_id := tid, license_key := key, device_id := dev,
            data := [r1], batch_id := none } now1 db).1).1).items
      = some { mkItemRow tid r2 lid with updated_at := some now2 } := by
  have hchain1 := sync_items_single
    { tenant_id := tid, license_key := key, device_id := dev,
      data := [r1], batch_id := none } now1 db r1 lid nm1 rfl h1 h1n hok
  have hkey1 : itemKeyPresent tid lid
      ((sync_items
        { tenant_id := tid, license_key := key, device_id := dev,
          data := [r1], batch_id := none } now1 db).1).items = true := by
    rw [hchain1]
    exact itemKeyPresent_upsert_self (mkItemRow tid r1 lid) now1 _
  have ht : ((sync_items
      { tenant_id := tid, license_key := key, device_id := dev,
        data := [r1], batch_id := none } now1 db).1).tenants = db.tenants := by
    rw [sync_items_fst_spec]
  have hok2 : (verify (α := ItemRecordInput)
      { tenant_id := tid, license_key := key, device_id := dev,
        data := [r2], batch_id := none } now2
      (sync_items
        { tenant_id := tid, license_key := key, device_id := dev,
          data := [r1], batch_id := none } now1 db).1).2.isOk = true := by
    rw [verify_snd_congr
      { tenant_id := tid, license_key := key, device_id := dev,
        data := [r1], batch_id := none }
      { tenant_id := tid, license_key := key, device_id := dev,
        data := [r2], batch_id := none }
      now1 now2 db _ ht rfl rfl rfl]
    exact hok
  rw [sync_items_single
    { tenant_id := tid, license_key := key, device_id := dev,
      data := [r2], batch_id := none } now2 _ r2 lid nm2 rfl h2 h2n hok2]
  have hvitems : ((verify (α := ItemRecordInput)
      { tenant_id := tid, license_key := key, device_id := dev,
        data := [r2], batch_id := none } now2
      (sync_items
        { tenant_id := tid, license_key := key, device_id := dev,
          data := [r1], batch_id := none } now1 db).1).1).items
      = ((sync_items
        { tenant_id := tid, license_key := key, device_id := dev,
          data := [r1], batch_id := none } now1 db).1).items := by
    rw [verify_fst_spec]
  rw [hvitems]
  exact findItem_upsert (mkItemRow tid r2 lid) now2 _ hkey1

/-- Witness for C8 at a concrete input: two sequential catalog syncs of
`local_id = "I1"` with selling prices 5 then 9 leave 9 stored. -/
theorem claim_C8_witness :
    findItem "T1" "I1"
      ((sync_items (mkPayload [itemRec2]) 2
        (sync_items (mkPayload [itemRec1]) 1 dbActive).1).1).items
      = some { mkItemRow "T1" itemRec2 "I1" with updated_at := some 2 } ∧
    (mkItemRow "T1" itemRec2 "I1").selling_price = 9 :=
  ⟨claim_C8_items_last_write_wins "T1" "K1" "D1" 1 2 dbActive itemRec1 itemRec2
      "I1" "Widget" "Widget" (by rfl) rfl rfl rfl rfl,
   rfl⟩

theorem sync_items_items_mono (p : Payload ItemRecordInput) (now : Nat)
    (db : DB) (tid lid : String) (h : itemKeyPresent tid lid db.items = true) :
    itemKeyPresent tid lid ((sync_items p now db).1).items = true := by
  unfold sync_items
  cases hv : verify p now db with
  | mk dbv res =>
      cases res with
      | error e => exact h
      | ok v =>
          dsimp only
          have hdbv : dbv.items = db.items := by
            have hh := verify_fst_spec p now db
            rw [hv] at hh
            dsimp only at hh
            rw [hh]
          split
          · rw [hdbv]
            exact h
          · dsimp only
            apply itemsFold_mono
            dsimp only
            rw [hdbv]
            exact h

theorem sync_sales_sales_mono (p : Payload SaleRecordInput) (now : Nat)
    (db : DB) (tid lid : String) (h : saleKeyPresent tid lid db.sales = true) :
    saleKeyPresent tid lid ((sync_sales p now db).1).sales = true := by
  unfold sync_sales
  cases hv : verify p now db with
  | mk dbv res =>
      cases res with
      | error e => exact h
      | ok v =>
          dsimp only
          have hdbv : dbv.sales = db.sales := by
            have hh := verify_fst_spec p now db
            rw [hv] at hh
            dsimp only at hh
            rw [hh]
          split
          · rw [hdbv]
            exact h
          · dsimp only
            apply salesFold_mono
            dsimp only
            rw [hdbv]
            exact h

theorem sync_purchases_purchases_mono (p : Payload PurchaseRecordInput) (now : Nat)
    (db : DB) (tid lid : String) (h : purchaseKeyPresent tid lid db.purchases = true) :
    purchaseKeyPresent tid lid ((sync_purchases p now db).1).purchases = true := by
  unfold sync_purchases
  cases hv : verify p now db with
  | mk dbv res =>
      cases res with
      | error e => exact h
      | ok v =>
          dsimp only
          have hdbv : dbv.purchases = db.purchases := by
            have hh := verify_fst_spec p now db
            rw [hv] at hh
            dsimp only at hh
            rw [hh]
          split
          · rw [hdbv]
            exact h
          · dsimp only
            apply purchasesFold_mono
            dsimp only
            rw [hdbv]
            exact h

theorem sync_expenses_expenses_mono (p : Payload ExpenseRecordInput) (now : Nat)
    (db : DB) (tid lid : String) (h : expenseKeyPresent tid lid db.expenses = true) :
    expenseKeyPresent tid lid ((sync_expenses p now db).1).expenses = true := by
  unfold sync_expenses
  cases hv : verify p now db with
  | mk dbv res =>
      cases res with
      | error e => exact h
      | ok v =>
          dsimp only
          have hdbv : dbv.expenses = db.expenses := by
            have hh := verify_fst_spec p now db
            rw [hv] at hh
            dsimp only at hh
            rw [hh]
          split
          · rw [hdbv]
            exact h
          · dsimp only
            apply expensesFold_mono
            dsimp only
            rw [hdbv]
            exact h

/-- C9: no endpoint of this interface ever deletes a header record: for
every `(tenant_id, local_id)` and every call, each of the four header
tables either is returned unchanged (tables the endpoint does not touch)
or preserves every key already present (the table it writes to). -/
theorem claim_C9_records_never_deleted :
    (∀ (α : Type) (p : Payload α) (now : Nat) (db : DB),
      ((verify p now db).1).items = db.items ∧
      ((verify p now db).1).sales = db.sales ∧
      ((verify p now db).1).purchases = db.purchases ∧
      ((verify p now db).1).expenses = db.expenses) ∧
    (∀ (p : Payload ItemRecordInput) (now : Nat) (db : DB) (tid lid : String),
      ((sync_items p now db).1).sales = db.sales ∧
      ((sync_items p now db).1).purchases = db.purchases ∧
      ((sync_items p now db).1).expenses = db.expenses ∧
      (itemKeyPresent tid lid db.items = true →
        itemKeyPresent tid lid ((sync_items p now db).1).items = true)) ∧
    (∀ (p : Payload SaleRecordInput) (now : Nat) (db : DB) (tid lid : String),
      ((sync_sales p now db).1).items = db.items ∧
      ((sync_sales p now db).1).purchases = db.purchases ∧
      ((sync_sales p now db).1).expenses = db.expenses ∧
      (saleKeyPresent tid lid db.sales = true →
        saleKeyPresent tid lid ((sync_sales p now db).1).sales = true)) ∧
    (∀ (p : Payload PurchaseRecordInput) (now : Nat) (db : DB) (tid lid : String),
      ((sync_purchases p now db).1).items = db.items ∧
      ((sync_purchases p now db).1).sales = db.sales ∧
      ((sync_purchases p now db).1).expenses = db.expenses ∧
      (purchaseKeyPresent tid lid db.purchases = true →
        purchaseKeyPresent tid lid ((sync_purchases p now db).1).purchases = true)) ∧
    (∀ (p : Payload ExpenseRecordInput) (now : Nat) (db : DB) (tid lid : String),
      ((sync_expenses p now db).1).items = db.items ∧
      ((sync_expenses p now db).1).sales = db.sales ∧
      ((sync_expenses p now db).1).purchases = db.purchases ∧
      (expenseKeyPresent tid lid db.expenses = true →
        expenseKeyPresent tid lid ((sync_expenses p now db).1).expenses = true)) := by
  refine ⟨fun α p now db => ?_, fun p now db tid lid => ?_, fun p now db tid lid => ?_,
    fun p now db tid lid => ?_, fun p now db tid lid => ?_⟩
  · rw [verify_fst_spec]
    exact ⟨rfl, rfl, rfl, rfl⟩
  · rw [sync_items_fst_spec]
    exact ⟨rfl, rfl, rfl, sync_items_items_mono p now db tid lid⟩
  · rw [sync_sales_fst_spec]
    exact ⟨rfl, rfl, rfl, sync_sales_sales_mono p now db tid lid⟩
  · rw [sync_purchases_fst_spec]
    exact ⟨rfl, rfl, rfl, sync_purchases_purchases_mono p now db tid lid⟩
  · rw [sync_expenses_fst_spec]
    exact ⟨rfl, rfl, rfl, sync_expenses_expenses_mono p now db tid lid⟩

/-- Witness for C9 at a concrete input: a sale header stored by a first
sync is still present after a replay of the same batch. -/
theorem claim_C9_witness :
    saleKeyPresent "T1" "S1"
      ((sync_sales (mkPayload [saleRecX]) 1
        (sync_sales (mkPayload [saleRecX]) 0 dbActive).1).1).sales = true :=
  (claim_C9_records_never_deleted.2.2.1 (mkPayload [saleRecX]) 1
      (sync_sales (mkPayload [saleRecX]) 0 dbActive).1 "T1" "S1").2.2.2 (by rfl)

/-- Witness for C1 at a concrete input: replaying a one-sale batch leaves
the stored sales headers unchanged. -/
theorem claim_C1_witness :
    ((sync_sales (mkPayload [saleRecX]) 1
        (sync_sales (mkPayload [saleRecX]) 0 dbActive).1).1).sales
      = ((sync_sales (mkPayload [saleRecX]) 0 dbActive).1).sales :=
  claim_C1_insert_or_ignore_idempotent.1 (mkPayload [saleRecX]) 0 1 dbActive

